import Mathlib

/-!
Verification development for the AI content-generation subsystem of the
`ntt-card-api` backend (`src/services/aiGenerationService.js`, the card
schema in `src/models/Card` and the card repository
`src/repositories/cardRepository.js`).

The JavaScript code is shallowly embedded: JS numbers that are used as
integers become `Int`/`Nat`, JS floats that only undergo exact decimal
arithmetic become `ℚ`, JS `undefined`-able request fields become `Option`,
thrown `AppError`s become `Except AppError`, and the two external effects
(the Gemini model client and the Firestore-backed card repository) become
an explicit `Env` record.  The SHA-256 content hash is modelled by the
normalized content string itself (the hash is injective up to collisions
and is used only for equality tests, so the normalized text is a faithful
stand-in).  Dates, logging and sleeping have no observable effect on the
values the service returns and are not modelled.
-/

namespace CardGen

/-- Decidable equality on `Except`, used to evaluate the embedded
service on concrete inputs. -/
instance {ε α : Type} [DecidableEq ε] [DecidableEq α] :
    DecidableEq (Except ε α) := fun a b =>
  match a, b with
  | .error e, .error f =>
    if h : e = f then .isTrue (by rw [h]) else .isFalse (by intro hh; cases hh; exact h rfl)
  | .ok x, .ok y =>
    if h : x = y then .isTrue (by rw [h]) else .isFalse (by intro hh; cases hh; exact h rfl)
  | .error _, .ok _ => .isFalse (by intro hh; cases hh)
  | .ok _, .error _ => .isFalse (by intro hh; cases hh)

/-- `AppError(message, statusCode)` from `src/middleware/errorHandler`. -/
structure AppError where
  message : String
  statusCode : Int
deriving DecidableEq, Repr

/-- Usage statistics block attached to a generated card
(`parseGeneratedCards` initializes all three fields to zero). -/
structure Statistics where
  timesDrawn : Int
  skipRate : ℚ
  languageUsageEn : Int
deriving DecidableEq, Repr

/-- A card object as emitted by the generation model inside the JSON
`cards` array.  `status`, `createdBy` and `statistics` may be emitted by
the model but are overridden by `parseGeneratedCards` (the object spread
in the source puts the fixed fields after `...card`). -/
structure RawCard where
  content : String
  type : String
  connectionLevel : Int
  relationshipTypes : List String
  tier : String
  status : Option String := none
  createdBy : Option String := none
  statistics : Option Statistics := none
deriving DecidableEq, Repr

/-- A generated card after `parseGeneratedCards`: the model fields plus
the provenance fields the service sets itself. -/
structure GenCard where
  content : String
  type : String
  connectionLevel : Int
  relationshipTypes : List String
  tier : String
  theta : ℚ
  createdBy : String
  status : String
  statistics : Statistics
  deckIds : List String := []
deriving DecidableEq, Repr

/-- A card document persisted in the `cards` collection, as seen by
`cardRepository.findByFilters`. -/
structure StoredCard where
  content : String
  type : String
  connectionLevel : Int
  relationshipTypes : List String
  tier : String
  status : String
  theta : ℚ
deriving DecidableEq, Repr

/-- The filter object accepted by `cardRepository.findByFilters`.  The
repository only reads `relationshipType` (singular), `connectionLevel`,
`type`, `status` and `theta`; the `relationshipTypes` (plural) and
`limit` keys that `aiGenerationService` passes are never read. -/
structure Filters where
  relationshipType : Option String := none
  relationshipTypes : Option (List String) := none
  connectionLevel : Option Int := none
  type : Option String := none
  status : Option String := none
  theta : Option (ℚ × ℚ) := none
  limit : Option Nat := none
deriving DecidableEq, Repr

/-- `cardRepository.findByFilters`: each `where` clause is added only when
the corresponding filter value is truthy in JS (`0`, `''` and `undefined`
are falsy, hence skipped).  `relationshipTypes` and `limit` are ignored
because the repository never reads those keys. -/
def findByFilters (repo : List StoredCard) (f : Filters) : List StoredCard :=
  repo.filter fun c =>
    (match f.relationshipType with
     | some rt => if rt = "" then true else c.relationshipTypes.contains rt
     | none => true) &&
    (match f.connectionLevel with
     | some cl => if cl = 0 then true else c.connectionLevel == cl
     | none => true) &&
    (match f.type with
     | some t => if t = "" then true else c.type == t
     | none => true) &&
    (match f.status with
     | some s => if s = "" then true else c.status == s
     | none => true) &&
    (match f.theta with
     | some (lo, hi) => decide (lo ≤ c.theta) && decide (c.theta ≤ hi)
     | none => true)

/-! ## Content normalization (`generateContentHash`) -/

/-- JS `\w`: ASCII letters, digits and underscore. -/
def isWordChar (c : Char) : Bool :=
  c.isAlphanum || c = '_'

/-- Collapse runs of spaces to a single space (the `\s+` → `' '` step,
after every whitespace character has been mapped to a space). -/
def squeezeSpaces : List Char → List Char
  | [] => []
  | [c] => [c]
  | a :: b :: rest =>
    if a = ' ' && b = ' ' then squeezeSpaces (b :: rest)
    else a :: squeezeSpaces (b :: rest)

/-- `String.trim` on a list of chars: drop leading and trailing spaces. -/
def trimSpaces (cs : List Char) : List Char :=
  ((cs.dropWhile (· = ' ')).reverse.dropWhile (· = ' ')).reverse

/-- The normalization inside `generateContentHash`: lowercase, strip all
characters that are neither word characters nor whitespace, collapse
whitespace runs to single spaces, trim.  The SHA-256 digest of this
string is modelled by the string itself. -/
def normalizeContent (s : String) : String :=
  let lowered := s.data.map Char.toLower
  let stripped := lowered.filter fun c => isWordChar c || c.isWhitespace
  let spaced := stripped.map fun c => if c.isWhitespace then ' ' else c
  String.mk (trimSpaces (squeezeSpaces spaced))

/-- JS `Set.add`: append the hash only when it is not already present. -/
def addHash (h : String) (hashes : List String) : List String :=
  if h ∈ hashes then hashes else hashes ++ [h]

/-! ## Semantic similarity (`checkSemanticSimilarity`) -/

/-- Split a character list on whitespace (JS `split(/\s+/)`; empty
tokens produced by leading whitespace are removed later by the length
filter, exactly as in the source). -/
def splitWsAux (acc : List Char) : List Char → List (List Char)
  | [] => [acc.reverse]
  | c :: rest =>
    if c.isWhitespace then acc.reverse :: splitWsAux [] rest
    else splitWsAux (c :: acc) rest

/-- The word set of a content string: lowercase, strip non-word
non-space characters, split on whitespace, keep words of length > 3
(a JS `Set` of strings becomes a `Finset String`). -/
def contentWords (s : String) : Finset String :=
  let lowered := s.data.map Char.toLower
  let stripped := lowered.filter fun c => isWordChar c || c.isWhitespace
  let words := (splitWsAux [] stripped).filter fun w => w.length > 3
  (words.map String.mk).toFinset

/-- Jaccard similarity `|A ∩ B| / |A ∪ B|`.  When both sets are empty the
JS division yields `NaN`, modelled as `none` (and `NaN > 0.7` is false,
which the duplicate test below mirrors). -/
def jaccardSim (A B : Finset String) : Option ℚ :=
  if (A ∪ B).card = 0 then none
  else some (((A ∩ B).card : ℚ) / ((A ∪ B).card : ℚ))

/-- The per-card duplicate test of `checkSemanticSimilarity`:
`similarity > 0.7`. -/
def jaccardDup (A B : Finset String) : Bool :=
  match jaccardSim A B with
  | none => false
  | some q => decide (q > mkRat 7 10)

/-- The `for … return true` loop over the existing cards. -/
def semanticLoop (cw : Finset String) : List StoredCard → Bool
  | [] => false
  | e :: rest =>
    if jaccardDup cw (contentWords e.content) then true
    else semanticLoop cw rest

/-! ## Fuzzy similarity (`levenshteinDistance`) -/

/-- One inner step of the dynamic-programming row computation:
`cur` is the value just computed in the new row, the head of the previous
row suffix is the diagonal entry.  (The default in `headD` is never used:
the previous row always has one more entry than the remaining string.) -/
def levRowAux (c : Char) : List Char → List Nat → Nat → List Nat
  | [], _, _ => []
  | _ :: xs, [], cur => (cur + 1) :: levRowAux c xs [] (cur + 1)
  | x :: xs, pprev :: prest, cur =>
    let pcur := prest.headD (pprev + 1)
    let v := min (cur + 1) (min (pcur + 1) (pprev + (if x = c then 0 else 1)))
    v :: levRowAux c xs prest v

/-- Compute the next DP row from the previous one. -/
def levRow (s : List Char) (prev : List Nat) (c : Char) : List Nat :=
  let first := prev.headD 0 + 1
  first :: levRowAux c s prev first

/-- `levenshteinDistance`, row by row (the source fills the same matrix
`matrix[j][i]` row-wise and returns the bottom-right entry). -/
def levDistance (s t : List Char) : Nat :=
  (t.foldl (levRow s) (List.range (s.length + 1))).getLastD 0

/-- `calculateLevenshteinSimilarity`: `(longer - distance) / longer`,
`1.0` when the longer string is empty. -/
def levSimilarity (str1 str2 : String) : ℚ :=
  let longer := if str1.length > str2.length then str1 else str2
  let shorter := if str1.length > str2.length then str2 else str1
  if longer.length = 0 then 1
  else ((longer.length : ℚ) - (levDistance longer.data shorter.data : ℚ))
    / (longer.length : ℚ)

/-- `checkFuzzyDuplicate`: similarity above `0.8` against any card
accepted earlier in the same batch. -/
def checkFuzzyDuplicate (content : String) : List GenCard → Bool
  | [] => false
  | e :: rest =>
    if levSimilarity content e.content > mkRat 4 5 then true
    else checkFuzzyDuplicate content rest

/-! ## Generation pipeline -/

/-- A generation request (`generateCards`' argument).  Fields a caller
may omit (`undefined` in JS) are `Option`s; `count`, `theta` and
`targetLanguages` have destructuring defaults in the source, the others
do not. -/
structure GenRequest where
  relationshipType : Option String := none
  connectionLevel : Option Int := none
  count : Option Int := none
  theta : Option ℚ := none
  targetLanguages : Option (List String) := none
  deckId : Option String := none
  userId : Option String := none
deriving DecidableEq, Repr

/-- Mutable service/repository state observable across a call:
the `contentHashes` instance field and the cards persisted through
`cardRepository.create`. -/
structure GenState where
  contentHashes : List String := []
  createdCards : List GenCard := []
deriving DecidableEq, Repr

/-- The two external collaborators: the text-generation model (per batch
index, either a raw error message or the parsed `cards` array — a parse
failure of unstructured output is folded into the error case) and the
card repository (its stored corpus, and whether `create` succeeds for a
given card). -/
structure Env where
  modelResponse : Nat → Except String (List RawCard)
  repo : List StoredCard
  createOk : GenCard → Bool

/-- The context object handed to `postProcessCards`. -/
structure PostCtx where
  relationshipType : Option String := none
  connectionLevel : Option Int := none
  deckId : Option String := none
  userId : Option String := none
deriving DecidableEq, Repr

/-- The five valid relationship types. -/
def validRelationshipTypes : List String :=
  ["friends", "colleagues", "new_couples", "established_couples", "family"]

/-- The destructuring default `count = 5`. -/
def countOf (req : GenRequest) : Int :=
  req.count.getD 5

/-- The destructuring default `theta = 0.5`. -/
def thetaOf (req : GenRequest) : ℚ :=
  req.theta.getD (mkRat 1 2)

/-- `Math.ceil(count / batchSize)` with `batchSize = 10` (the request
never reaches this point with a non-positive `count`, so `toNat` is
exact on the reachable domain). -/
def batchCountOf (req : GenRequest) : Nat :=
  ((countOf req).toNat + 9) / 10

/-- `!validRelationshipTypes.includes(relationshipType)`
(an absent value is not in the list). -/
def relTypeInvalid (req : GenRequest) : Bool :=
  match req.relationshipType with
  | some rt => !(validRelationshipTypes.contains rt)
  | none => true

/-- `connectionLevel < 1 || connectionLevel > 4`; a comparison against
`undefined` is false in JS, so an absent value never fails. -/
def connLevelInvalid (req : GenRequest) : Bool :=
  match req.connectionLevel with
  | some c => decide (c < 1) || decide (c > 4)
  | none => false

/-- `count < 1 || count > 50`; absent values never fail. -/
def countInvalid (req : GenRequest) : Bool :=
  match req.count with
  | some n => decide (n < 1) || decide (n > 50)
  | none => false

/-- `theta < 0.1 || theta > 1.0`; absent values never fail. -/
def thetaInvalid (req : GenRequest) : Bool :=
  match req.theta with
  | some t => decide (t < mkRat 1 10) || decide (t > 1)
  | none => false

/-- `validateGenerationRequest`: the four checks in source order, each
throwing a 400 `AppError`. -/
def validateGenerationRequest (req : GenRequest) : Except AppError Unit :=
  if relTypeInvalid req then
    .error { message := "Invalid relationship type", statusCode := 400 }
  else if connLevelInvalid req then
    .error { message := "Connection level must be between 1 and 4", statusCode := 400 }
  else if countInvalid req then
    .error { message := "Count must be between 1 and 50", statusCode := 400 }
  else if thetaInvalid req then
    .error { message := "Theta must be between 0.1 and 1.0", statusCode := 400 }
  else
    .ok ()

/-- Gemini generation parameters derived from theta
(`getGenerationConfig`). -/
structure GenConfig where
  temperature : ℚ
  topP : ℚ
  maxOutputTokens : Int
  candidateCount : Int
deriving DecidableEq, Repr

/-- `getGenerationConfig`. -/
def getGenerationConfig (theta : ℚ) : GenConfig :=
  { temperature := min (9/10) (theta * (6/5))
    topP := max (4/5) (1 - theta * (1/5))
    maxOutputTokens := if theta ≥ (3/5 : ℚ) then 4096 else 2048
    candidateCount := 1 }

/-- Model selection in `generateCardBatch` (and `estimateCost`):
`theta >= 0.6 ? proModel : flashModel`. -/
def selectModelName (theta : ℚ) : String :=
  if theta ≥ (3/5 : ℚ) then "gemini-1.5-pro" else "gemini-1.5-flash"

/-- The cost-estimate record returned by `estimateCost`. -/
structure CostEstimate where
  estimated : Bool
  inputTokens : Int
  outputTokens : Int
  inputCost : ℚ
  outputCost : ℚ
  totalCost : ℚ
  model : String
deriving DecidableEq, Repr

/-- `parseFloat(x.toFixed(4))`: round to 4 decimal places. -/
def round4 (q : ℚ) : ℚ :=
  (round (q * 10000) : ℚ) / 10000

/-- `estimateCost`. -/
def estimateCost (count : Int) (theta : ℚ) (languageCount : Int) : CostEstimate :=
  let isProModel : Bool := decide (theta ≥ (3/5 : ℚ))
  let avgTokensPerCard : Int := if theta ≥ (3/5 : ℚ) then 200 else 150
  let totalInputTokens := count * 500
  let totalOutputTokens := count * avgTokensPerCard * languageCount
  let inputCostPer1M : ℚ := if isProModel then 7/2 else 3/40
  let outputCostPer1M : ℚ := if isProModel then 21/2 else 3/10
  let inputCost := ((totalInputTokens : ℚ) / 1000000) * inputCostPer1M
  let outputCost := ((totalOutputTokens : ℚ) / 1000000) * outputCostPer1M
  { estimated := true
    inputTokens := totalInputTokens
    outputTokens := totalOutputTokens
    inputCost := round4 inputCost
    outputCost := round4 outputCost
    totalCost := round4 (inputCost + outputCost)
    model := if isProModel then "gemini-1.5-pro" else "gemini-1.5-flash" }

/-- The summary object `generateCards` returns. -/
structure Summary where
  success : Bool
  generated : Int
  requested : Int
  theta : ℚ
  cost : CostEstimate
  duplicatesDetected : Int
  cards : List GenCard
deriving DecidableEq, Repr

/-- `parseGeneratedCards`: take the model's `cards` array and override
`theta`, `createdBy`, `status` and `statistics` (the fixed fields come
after the `...card` spread, so whatever the model emitted for them is
discarded). -/
def parseGeneratedCards (theta : ℚ) (raws : List RawCard) : List GenCard :=
  raws.map fun r =>
    { content := r.content
      type := r.type
      connectionLevel := r.connectionLevel
      relationshipTypes := r.relationshipTypes
      tier := r.tier
      theta := theta
      createdBy := "ai_generation"
      status := "review"
      statistics := { timesDrawn := 0, skipRate := 0, languageUsageEn := 0 } }

/-- `checkSemanticSimilarity`: fetch comparison cards through
`findByFilters` (passing `relationshipTypes: [rt]` and `limit: 100`,
which the repository ignores) and scan them for a Jaccard similarity
above `0.7`. -/
def checkSemanticSimilarity (env : Env) (content rt : String) (cl : Int) : Bool :=
  let existing := findByFilters env.repo
    { relationshipTypes := some [rt], connectionLevel := some cl, limit := some 100 }
  semanticLoop (contentWords content) existing

/-- The loop body of `filterDuplicates`: `acc` is `uniqueCards` so far,
`hashes` the `contentHashes` cache. -/
def filterDupAux (env : Env) : List GenCard → List GenCard → List String →
    List GenCard × List String
  | [], acc, hashes => (acc, hashes)
  | card :: rest, acc, hashes =>
    let contentText := card.content
    let contentHash := normalizeContent contentText
    if contentHash ∈ hashes then
      filterDupAux env rest acc hashes
    else if checkSemanticSimilarity env contentText
        (card.relationshipTypes.headD "") card.connectionLevel then
      filterDupAux env rest acc hashes
    else if checkFuzzyDuplicate contentText acc then
      filterDupAux env rest acc hashes
    else
      filterDupAux env rest (acc ++ [card]) (addHash contentHash hashes)

/-- `filterDuplicates` over a batch of parsed cards, also returning the
updated hash cache. -/
def filterDuplicates (env : Env) (hashes : List String) (cards : List GenCard) :
    List GenCard × List String :=
  filterDupAux env cards [] hashes

/-- Is `p` a prefix of the second list? -/
def isPrefixList : List Char → List Char → Bool
  | [], _ => true
  | _ :: _, [] => false
  | p :: ps, c :: cs => p = c && isPrefixList ps cs

/-- Substring search over character lists. -/
def listContainsSub (pat : List Char) : List Char → Bool
  | [] => pat.isEmpty
  | c :: rest => isPrefixList pat (c :: rest) || listContainsSub pat rest

/-- `'…'.includes(pat)` for the error-message sniffing. -/
def containsText (s pat : String) : Bool :=
  listContainsSub pat.data s.data

/-- `generateCardBatch`: call the model, classify a failure as a 429
rate-limit error when its message mentions `quota` or `rate`, otherwise
rethrow as a 500; on success parse the cards and filter duplicates. -/
def generateCardBatch (env : Env) (theta : ℚ) (batchIndex : Nat)
    (hashes : List String) : Except AppError (List GenCard × List String) :=
  match env.modelResponse batchIndex with
  | .error msg =>
    if containsText msg "quota" || containsText msg "rate" then
      .error { message := "Rate limit exceeded, please try again later", statusCode := 429 }
    else
      .error { message := "AI generation error: " ++ msg, statusCode := 500 }
  | .ok raws =>
    .ok (filterDuplicates env hashes (parseGeneratedCards theta raws))

/-- The batch loop of `generateCards`: on a batch failure, rethrow a hard
500 only when no card has been accumulated yet
(`if (generatedCards.length === 0) throw …`), otherwise skip the batch
and continue.  The per-batch requested size
`Math.min(batchSize, count - generatedCards.length)` only feeds the
prompt text, which the environment abstracts, so it does not appear
here; neither does the inter-batch delay. -/
def runBatches (env : Env) (theta : ℚ) : List Nat → List GenCard → List String →
    Except AppError (List GenCard × List String)
  | [], acc, hashes => .ok (acc, hashes)
  | i :: rest, acc, hashes =>
    match generateCardBatch env theta i hashes with
    | .ok (unique, hashes1) => runBatches env theta rest (acc ++ unique) hashes1
    | .error e =>
      if acc.isEmpty then
        .error { message := "AI generation failed: " ++ e.message, statusCode := 500 }
      else
        runBatches env theta rest acc hashes

/-- The cards and final hash cache collected by the loop when every
failure is skipped: the survivors of the non-failing batches, in order.
Used to state partial-failure aggregation. -/
def skipFailures (env : Env) (theta : ℚ) : List Nat → List String →
    List GenCard × List String
  | [], hashes => ([], hashes)
  | i :: rest, hashes =>
    match generateCardBatch env theta i hashes with
    | .ok (unique, hashes1) =>
      let tail := skipFailures env theta rest hashes1
      (unique ++ tail.1, tail.2)
    | .error _ => skipFailures env theta rest hashes

/-- `loadExistingContentHashes`: clear the cache, query the active cards
(the `relationshipTypes` filter is ignored by the repository, so this is
every active card at the requested connection level) and insert each
normalized-content hash. -/
def initialHashes (env : Env) (req : GenRequest) : List String :=
  let existing := findByFilters env.repo
    { relationshipTypes := req.relationshipType.map fun rt => [rt]
      connectionLevel := req.connectionLevel
      status := some "active" }
  existing.foldl (fun hs c => addHash (normalizeContent c.content) hs) []

/-- The Joi `cardSchema` of `src/models/Card`, restricted to the fields
the generation pipeline produces (a Joi `string().required()` rejects
the empty string, hence the `createdBy ≠ ""` check; `categories`,
`contentWarnings` and the date fields have defaults and cannot fail). -/
def validateCardB (c : GenCard) : Bool :=
  decide (10 ≤ c.content.length) && decide (c.content.length ≤ 500) &&
  ["question", "challenge", "scenario", "connection", "wild"].contains c.type &&
  decide (1 ≤ c.connectionLevel) && decide (c.connectionLevel ≤ 4) &&
  !c.relationshipTypes.isEmpty &&
  c.relationshipTypes.all validRelationshipTypes.contains &&
  ["FREE", "PREMIUM"].contains c.tier &&
  decide (mkRat 1 10 ≤ c.theta) && decide (c.theta ≤ 1) &&
  ["active", "review", "archived", "draft"].contains c.status &&
  !(c.createdBy = "") &&
  decide (0 ≤ c.statistics.timesDrawn) &&
  decide (0 ≤ c.statistics.skipRate) && decide (c.statistics.skipRate ≤ 1)

/-- The field mutations `postProcessCards` applies before validating:
`deckIds` from the context (`createdAt` is a date and not modelled). -/
def enrichCard (ctx : PostCtx) (c : GenCard) : GenCard :=
  { c with deckIds := match ctx.deckId with | some d => [d] | none => [] }

/-- `postProcessCards`: enrich, validate against the card schema, persist
through `cardRepository.create`; a validation failure or a `create`
throw is logged and the card skipped — no error escapes.
(`create` returns the stored document unchanged apart from id and
timestamps, which are not modelled; the `updateDeckCardCount` call to
the deck repository happens after the card is pushed and cannot change
the returned list, so it is not modelled either.) -/
def postProcessCards (env : Env) (ctx : PostCtx) : List GenCard → List GenCard
  | [] => []
  | c :: rest =>
    let c1 := enrichCard ctx c
    if validateCardB c1 then
      if env.createOk c1 then c1 :: postProcessCards env ctx rest
      else postProcessCards env ctx rest
    else
      postProcessCards env ctx rest

/-- The `postProcessCards` context built in `generateCards`. -/
def postCtxOf (req : GenRequest) : PostCtx :=
  { relationshipType := req.relationshipType
    connectionLevel := req.connectionLevel
    deckId := req.deckId
    userId := req.userId }

/-- `generateCards`: validate, load the hash cache, run the batches,
post-process, and assemble the summary.  The returned state carries the
final `contentHashes` cache and the cards persisted by this call. -/
def generateCards (env : Env) (st : GenState) (req : GenRequest) :
    Except AppError Summary × GenState :=
  match validateGenerationRequest req with
  | .error e => (.error e, st)
  | .ok _ =>
    match runBatches env (thetaOf req) (List.range (batchCountOf req)) []
        (initialHashes env req) with
    | .error e => (.error e, { st with contentHashes := initialHashes env req })
    | .ok (generatedCards, hashes1) =>
      (.ok { success := true
             generated := ((postProcessCards env (postCtxOf req) generatedCards).length : Int)
             requested := countOf req
             theta := thetaOf req
             cost := estimateCost (countOf req) (thetaOf req)
               (((req.targetLanguages.getD ["en"]).length : Int))
             duplicatesDetected := countOf req -
               ((postProcessCards env (postCtxOf req) generatedCards).length : Int)
             cards := postProcessCards env (postCtxOf req) generatedCards },
       { contentHashes := hashes1
         createdCards := st.createdCards ++ postProcessCards env (postCtxOf req) generatedCards })

/-! ## Helper lemmas -/

/-- `validateGenerationRequest` succeeds exactly when all four checks pass. -/
lemma validate_ok_iff (req : GenRequest) :
    validateGenerationRequest req = .ok () ↔
      relTypeInvalid req = false ∧ connLevelInvalid req = false ∧
      countInvalid req = false ∧ thetaInvalid req = false := by
  cases h1 : relTypeInvalid req <;> cases h2 : connLevelInvalid req <;>
    cases h3 : countInvalid req <;> cases h4 : thetaInvalid req <;>
    simp [validateGenerationRequest, h1, h2, h3, h4]

/-- A validated request has `count` (after the default) between 1 and 50. -/
lemma countOf_pos_of_validate {req : GenRequest}
    (h : validateGenerationRequest req = .ok ()) : 1 ≤ countOf req := by
  have hc := ((validate_ok_iff req).mp h).2.2.1
  unfold countInvalid at hc
  unfold countOf
  cases hcount : req.count with
  | none => simp
  | some n =>
    rw [hcount] at hc
    simp only [Bool.or_eq_false_iff, decide_eq_false_iff_not, not_lt] at hc
    simpa using hc.1

/-- A validated request runs at least one batch. -/
lemma batchCountOf_pos_of_validate {req : GenRequest}
    (h : validateGenerationRequest req = .ok ()) : 0 < batchCountOf req := by
  have h1 := countOf_pos_of_validate h
  unfold batchCountOf
  have : 1 ≤ (countOf req).toNat := by omega
  omega

/-- Anatomy of a successful `generateCards` call: the batch loop
succeeded and the summary fields are assembled from its output. -/
lemma generateCards_ok_spec {env : Env} {st : GenState} {req : GenRequest}
    {s : Summary} {st' : GenState}
    (h : generateCards env st req = (.ok s, st')) :
    ∃ cards hashes1,
      runBatches env (thetaOf req) (List.range (batchCountOf req)) []
          (initialHashes env req) = .ok (cards, hashes1) ∧
      s.cards = postProcessCards env (postCtxOf req) cards ∧
      s.generated = (s.cards.length : Int) ∧
      s.requested = countOf req ∧
      s.duplicatesDetected = countOf req - (s.cards.length : Int) ∧
      s.theta = thetaOf req ∧
      st' = { contentHashes := hashes1, createdCards := st.createdCards ++ s.cards } := by
  rw [generateCards] at h
  cases hv : validateGenerationRequest req with
  | error e => rw [hv] at h; exact absurd h (by simp)
  | ok u =>
    rw [hv] at h
    dsimp only at h
    cases hr : runBatches env (thetaOf req) (List.range (batchCountOf req)) []
        (initialHashes env req) with
    | error e => rw [hr] at h; exact absurd h (by simp)
    | ok p =>
      obtain ⟨cards, hashes1⟩ := p
      rw [hr] at h
      dsimp only at h
      simp only [Prod.mk.injEq, Except.ok.injEq] at h
      obtain ⟨h1, h2⟩ := h
      subst h1
      subst h2
      exact ⟨cards, hashes1, rfl, rfl, rfl, rfl, rfl, rfl, rfl⟩

/-- On a failing batch with a nonempty accumulator the loop just skips;
hence with a nonempty accumulator the loop never throws and collects
exactly the survivors of the non-failing batches. -/
lemma runBatches_eq_skipFailures (env : Env) (theta : ℚ) :
    ∀ (idxs : List Nat) (acc : List GenCard) (hashes : List String),
      acc ≠ [] →
      runBatches env theta idxs acc hashes =
        .ok (acc ++ (skipFailures env theta idxs hashes).1,
             (skipFailures env theta idxs hashes).2) := by
  intro idxs
  induction idxs with
  | nil => intro acc hashes hne; simp [runBatches, skipFailures]
  | cons i rest ih =>
    intro acc hashes hne
    rw [runBatches, skipFailures]
    cases hb : generateCardBatch env theta i hashes with
    | ok p =>
      obtain ⟨unique, hashes1⟩ := p
      dsimp only
      rw [ih (acc ++ unique) hashes1 (by simp [hne])]
      simp
    | error e =>
      have hacc : acc.isEmpty = false := by
        cases acc with
        | nil => exact absurd rfl hne
        | cons a t => rfl
      dsimp only
      rw [hacc]
      rw [if_neg (by simp)]
      exact ih acc hashes hne

/-- The provenance properties claim C5 tracks through the pipeline. -/
def cardProvenanceOk (c : GenCard) : Prop :=
  c.status = "review" ∧ c.createdBy = "ai_generation" ∧
  c.statistics = { timesDrawn := 0, skipRate := 0, languageUsageEn := 0 }

/-- Every parsed card carries the fixed provenance fields, whatever the
model emitted. -/
lemma parseGeneratedCards_prov {theta : ℚ} {raws : List RawCard} :
    ∀ c ∈ parseGeneratedCards theta raws, cardProvenanceOk c := by
  intro c hc
  obtain ⟨r, _, rfl⟩ := List.mem_map.mp hc
  exact ⟨rfl, rfl, rfl⟩

/-- `filterDuplicates` only ever outputs cards it was given. -/
lemma filterDupAux_mem (env : Env) :
    ∀ (cards acc : List GenCard) (hashes : List String) (c : GenCard),
      c ∈ (filterDupAux env cards acc hashes).1 → c ∈ acc ∨ c ∈ cards := by
  intro cards
  induction cards with
  | nil => intro acc hashes c hc; exact .inl hc
  | cons card rest ih =>
    intro acc hashes c hc
    rw [filterDupAux] at hc
    split at hc
    · rcases ih _ _ _ hc with h | h
      · exact .inl h
      · exact .inr (List.mem_cons_of_mem _ h)
    · split at hc
      · rcases ih _ _ _ hc with h | h
        · exact .inl h
        · exact .inr (List.mem_cons_of_mem _ h)
      · split at hc
        · rcases ih _ _ _ hc with h | h
          · exact .inl h
          · exact .inr (List.mem_cons_of_mem _ h)
        · rcases ih _ _ _ hc with h | h
          · rcases List.mem_append.mp h with h | h
            · exact .inl h
            · exact .inr (List.mem_singleton.mp h ▸ List.mem_cons_self _ _)
          · exact .inr (List.mem_cons_of_mem _ h)

/-- A successful batch only returns cards with the fixed provenance
fields. -/
lemma generateCardBatch_prov {env : Env} {theta : ℚ} {i : Nat}
    {hashes : List String} {u : List GenCard} {h1 : List String}
    (hb : generateCardBatch env theta i hashes = .ok (u, h1)) :
    ∀ c ∈ u, cardProvenanceOk c := by
  intro c hc
  rw [generateCardBatch] at hb
  cases hm : env.modelResponse i with
  | error msg =>
    rw [hm] at hb
    dsimp only at hb
    split at hb <;> exact absurd hb (by simp)
  | ok raws =>
    rw [hm] at hb
    dsimp only at hb
    simp only [Except.ok.injEq] at hb
    have : c ∈ (filterDuplicates env hashes (parseGeneratedCards theta raws)).1 := by
      rw [hb]; exact hc
    rcases filterDupAux_mem env _ _ _ _ this with h | h
    · exact absurd h (List.not_mem_nil c)
    · exact parseGeneratedCards_prov c h

/-- The batch loop preserves provenance. -/
lemma runBatches_prov {env : Env} {theta : ℚ} :
    ∀ (idxs : List Nat) (acc : List GenCard) (hashes : List String)
      (cards : List GenCard) (hfin : List String),
      (∀ c ∈ acc, cardProvenanceOk c) →
      runBatches env theta idxs acc hashes = .ok (cards, hfin) →
      ∀ c ∈ cards, cardProvenanceOk c := by
  intro idxs
  induction idxs with
  | nil =>
    intro acc hashes cards hfin hacc hr
    rw [runBatches] at hr
    obtain ⟨h1, h2⟩ := Prod.mk.injEq .. ▸ Except.ok.inj hr
    exact h1 ▸ hacc
  | cons i rest ih =>
    intro acc hashes cards hfin hacc hr
    rw [runBatches] at hr
    cases hb : generateCardBatch env theta i hashes with
    | ok p =>
      obtain ⟨unique, hashes1⟩ := p
      rw [hb] at hr
      dsimp only at hr
      refine ih _ _ _ _ ?_ hr
      intro c hc
      rcases List.mem_append.mp hc with h | h
      · exact hacc c h
      · exact generateCardBatch_prov hb c h
    | error e =>
      rw [hb] at hr
      dsimp only at hr
      split at hr
      · exact absurd hr (by simp)
      · exact ih _ _ _ _ hacc hr

/-- `postProcessCards` is the filter of the enriched cards by schema
validation and repository-create success. -/
lemma postProcessCards_eq_filter (env : Env) (ctx : PostCtx) :
    ∀ cards : List GenCard,
      postProcessCards env ctx cards =
        (cards.map (enrichCard ctx)).filter
          fun c => validateCardB c && env.createOk c := by
  intro cards
  induction cards with
  | nil => rfl
  | cons c rest ih =>
    rw [postProcessCards, List.map_cons, List.filter_cons]
    cases hv : validateCardB (enrichCard ctx c) with
    | true =>
      cases hcr : env.createOk (enrichCard ctx c) with
      | true => simp [hv, hcr, ih]
      | false => simp [hv, hcr, ih]
    | false => simp [hv, ih]

/-- Enrichment only touches `deckIds`. -/
lemma enrichCard_prov {ctx : PostCtx} {c : GenCard}
    (h : cardProvenanceOk c) : cardProvenanceOk (enrichCard ctx c) := h

/-! ## Concrete fixtures for the spec scenarios -/

/-- The spec scenario request: friends, level 1, count 3, quality 0.3,
languages `["en"]`. -/
def reqC1 : GenRequest :=
  { relationshipType := some "friends", connectionLevel := some 1,
    count := some 3, theta := some (mkRat 3 10), targetLanguages := some ["en"] }

/-- First stub card; the model also emits `status`/`createdBy`, which the
parser overrides. -/
def rawC1a : RawCard :=
  { content := "What Is Your Favorite Shared Memory?", type := "question",
    connectionLevel := 1, relationshipTypes := ["friends"], tier := "FREE",
    status := some "active", createdBy := some "gemini" }

/-- Second stub card, identical to the first in normalized text. -/
def rawC1b : RawCard :=
  { content := "what is your favorite shared memory", type := "question",
    connectionLevel := 1, relationshipTypes := ["friends"], tier := "FREE" }

/-- Scenario environment: empty corpus, one batch returning the two
normalized-identical cards, `create` always succeeds. -/
def envC1 : Env :=
  { modelResponse := fun i => if i = 0 then .ok [rawC1a, rawC1b] else .error "no batch",
    repo := [], createOk := fun _ => true }

/-- Request with two batches (count 20). -/
def reqC2 : GenRequest :=
  { relationshipType := some "friends", connectionLevel := some 1,
    count := some 20, theta := some (mkRat 1 2), targetLanguages := some ["en"] }

/-- A single distinct valid stub card. -/
def rawC2 : RawCard :=
  { content := "plan a tiny adventure together right now", type := "question",
    connectionLevel := 1, relationshipTypes := ["friends"], tier := "FREE" }

/-- Two-batch environment in which only the second batch fails
(`F = {2}`). -/
def envC2 : Env :=
  { modelResponse := fun i =>
      if i = 0 then .ok [rawC2] else .error "boom",
    repo := [], createOk := fun _ => true }

/-- Two-batch environment in which only the first batch fails
(`F = {1}`, a proper non-empty subset of `{1,2}`). -/
def envC2f : Env :=
  { modelResponse := fun i =>
      if i = 0 then .error "boom" else .ok [rawC2],
    repo := [], createOk := fun _ => true }

/-- The card of `rawC2` after parsing with the default theta. -/
def cardC2 : GenCard :=
  { content := "plan a tiny adventure together right now", type := "question",
    connectionLevel := 1, relationshipTypes := ["friends"], tier := "FREE",
    theta := mkRat 1 2, createdBy := "ai_generation", status := "review",
    statistics := { timesDrawn := 0, skipRate := 0, languageUsageEn := 0 } }

/-- Request relying on the destructuring defaults (count 5, theta 0.5). -/
def reqC3 : GenRequest :=
  { relationshipType := some "friends", connectionLevel := some 1 }

/-- Environment in which every batch fails. -/
def envC3 : Env :=
  { modelResponse := fun _ => .error "boom", repo := [], createOk := fun _ => true }

/-- A request whose `count` is explicitly out of range. -/
def reqC4 : GenRequest :=
  { relationshipType := some "friends", connectionLevel := some 1,
    count := some 0 }

/-! ## Claims -/

/-- Claim C1, amended: on the spec scenario (friends, level 1, count 3,
quality 0.3, empty corpus, model stub returning 2 cards identical in
normalized text) `generateCards` reports `generatedCount = 1` but
`duplicatesDetected = 2`, not 1: in general `duplicatesDetected` is the
whole shortfall `requestedCount − generatedCount`, not only the cards
dropped by the similarity detector. -/
theorem claimC1_duplicates_is_shortfall (env : Env) (st : GenState)
    (req : GenRequest) (s : Summary) (st' : GenState)
    (h : generateCards env st req = (.ok s, st')) :
    s.duplicatesDetected = s.requested - s.generated := by
  obtain ⟨cards, hashes1, -, -, hgen, hreq, hdup, -, -⟩ := generateCards_ok_spec h
  rw [hdup, hreq, hgen]

/-- Claim C1 witness: the amended identity at the spec scenario. -/
theorem claimC1_witness :
    ∃ (s : Summary) (st' : GenState),
      generateCards envC1 {} reqC1 = (.ok s, st') ∧
      s.duplicatesDetected = s.requested - s.generated :=
  ⟨_, _, rfl, claimC1_duplicates_is_shortfall envC1 {} reqC1 _ _ rfl⟩

/-- Claim C1 counterexample: at the scenario the claim predicts
`generatedCount = 1 ∧ duplicatesDetected = 1`; the code yields
`generatedCount = 1` and `duplicatesDetected = 2` (= 3 requested − 1
generated), so the claimed conjunction is false. -/
theorem claimC1_counterexample :
    ∃ (s : Summary) (st' : GenState),
      generateCards envC1 {} reqC1 = (.ok s, st') ∧
      s.generated = 1 ∧ s.duplicatesDetected = 2 ∧
      ¬(s.generated = 1 ∧ s.duplicatesDetected = 1) :=
  ⟨_, _, rfl, rfl, rfl, by decide⟩

/-- Claim C2, amended: with `N` batches, failing batches skipped, the
run throws no exception and the summary collects exactly the surviving
validated cards of the non-failing batches — provided the first batch
succeeds with at least one surviving card (when a batch fails while no
card has survived yet, the loop instead throws; see the
counterexample). -/
theorem claimC2_partial_failure_aggregation (env : Env) (st : GenState)
    (req : GenRequest) (u : List GenCard) (h1 : List String)
    (hval : validateGenerationRequest req = .ok ())
    (hb : generateCardBatch env (thetaOf req) 0 (initialHashes env req) = .ok (u, h1))
    (hu : u ≠ []) :
    ∃ (s : Summary) (st' : GenState),
      generateCards env st req = (.ok s, st') ∧
      s.cards = postProcessCards env (postCtxOf req)
        (skipFailures env (thetaOf req) (List.range (batchCountOf req))
          (initialHashes env req)).1 ∧
      s.generated = (s.cards.length : Int) ∧
      s.duplicatesDetected = countOf req - s.generated := by
  have hbc := batchCountOf_pos_of_validate hval
  obtain ⟨rest, hrange⟩ : ∃ rest, List.range (batchCountOf req) = 0 :: rest := by
    obtain ⟨k, hk⟩ : ∃ k, batchCountOf req = k + 1 := ⟨batchCountOf req - 1, by omega⟩
    exact ⟨_, by rw [hk, List.range_succ_eq_map]⟩
  have hrun : runBatches env (thetaOf req) (List.range (batchCountOf req)) []
      (initialHashes env req) =
      .ok ((skipFailures env (thetaOf req) (List.range (batchCountOf req))
              (initialHashes env req)).1,
           (skipFailures env (thetaOf req) (List.range (batchCountOf req))
              (initialHashes env req)).2) := by
    rw [hrange, runBatches, skipFailures, hb]
    dsimp only
    rw [List.nil_append, runBatches_eq_skipFailures env (thetaOf req) rest u h1 hu]
  rw [generateCards, hval]
  dsimp only
  rw [hrun]
  exact ⟨_, _, rfl, rfl, rfl, rfl⟩

/-- Claim C2 witness: two batches, the second failing (`F = {2}`), the
first surviving with one card. -/
theorem claimC2_witness :
    ∃ (s : Summary) (st' : GenState),
      generateCards envC2 {} reqC2 = (.ok s, st') ∧
      s.cards = postProcessCards envC2 (postCtxOf reqC2)
        (skipFailures envC2 (thetaOf reqC2) (List.range (batchCountOf reqC2))
          (initialHashes envC2 reqC2)).1 ∧
      s.generated = (s.cards.length : Int) ∧
      s.duplicatesDetected = countOf reqC2 - s.generated :=
  claimC2_partial_failure_aggregation envC2 {} reqC2 [cardC2]
    [normalizeContent cardC2.content] (by decide) (by decide) (by decide)

/-- Claim C2 counterexample: `N = 2` batches, `F = {1}` a proper
non-empty subset of `{1, 2}` (the stub for batch 2 would succeed), yet
`generateCards` throws a hard 500 error instead of continuing, because
the failure happens while the accumulated card list is still empty. -/
theorem claimC2_counterexample :
    batchCountOf reqC2 = 2 ∧
    envC2f.modelResponse 0 = .error "boom" ∧
    envC2f.modelResponse 1 = .ok [rawC2] ∧
    ∃ e : AppError, (generateCards envC2f {} reqC2).1 = .error e ∧
      e.statusCode = 500 :=
  ⟨rfl, rfl, rfl,
    { message := "AI generation failed: AI generation error: boom", statusCode := 500 },
    by decide, rfl⟩

/-- Claim C3: when every batch fails, `generateCards` propagates a hard
500 failure and creates no card in the repository. -/
theorem claimC3_total_failure (env : Env) (st : GenState) (req : GenRequest)
    (hval : validateGenerationRequest req = .ok ())
    (hall : ∀ i < batchCountOf req, ∃ msg, env.modelResponse i = .error msg) :
    (∃ e : AppError, (generateCards env st req).1 = .error e ∧
      e.statusCode = 500) ∧
    (generateCards env st req).2.createdCards = st.createdCards := by
  have hbc := batchCountOf_pos_of_validate hval
  obtain ⟨msg, hmsg⟩ := hall 0 hbc
  obtain ⟨rest, hrange⟩ : ∃ rest, List.range (batchCountOf req) = 0 :: rest := by
    obtain ⟨k, hk⟩ : ∃ k, batchCountOf req = k + 1 := ⟨batchCountOf req - 1, by omega⟩
    exact ⟨_, by rw [hk, List.range_succ_eq_map]⟩
  obtain ⟨e, he⟩ : ∃ e : AppError,
      generateCardBatch env (thetaOf req) 0 (initialHashes env req) = .error e := by
    rw [generateCardBatch, hmsg]
    dsimp only
    by_cases hq : (containsText msg "quota" || containsText msg "rate") = true
    · rw [if_pos hq]; exact ⟨_, rfl⟩
    · rw [if_neg hq]; exact ⟨_, rfl⟩
  have hrun : runBatches env (thetaOf req) (List.range (batchCountOf req)) []
      (initialHashes env req) =
      .error { message := "AI generation failed: " ++ e.message, statusCode := 500 } := by
    rw [hrange, runBatches, he]
    rfl
  have hgen : generateCards env st req =
      (.error { message := "AI generation failed: " ++ e.message, statusCode := 500 },
       { st with contentHashes := initialHashes env req }) := by
    rw [generateCards, hval]
    dsimp only
    rw [hrun]
  rw [hgen]
  exact ⟨⟨_, rfl, rfl⟩, rfl⟩

/-- Claim C3 witness: defaults request (count 5, one batch), model
failing on every batch. -/
theorem claimC3_witness :
    (∃ e : AppError, (generateCards envC3 {} reqC3).1 = .error e ∧
      e.statusCode = 500) ∧
    (generateCards envC3 {} reqC3).2.createdCards = GenState.createdCards {} :=
  claimC3_total_failure envC3 {} reqC3 (by decide) (fun i _ => ⟨"boom", rfl⟩)

/-- Claim C4: a request failing any of the four validation checks is
rejected with a 400 error before any repository or model interaction:
the outcome is the same for every environment and the state is returned
untouched (no hash cache loaded, no card created). -/
theorem claimC4_validation_fail_fast (st : GenState) (req : GenRequest)
    (h : (relTypeInvalid req || connLevelInvalid req ||
          countInvalid req || thetaInvalid req) = true) :
    ∃ e : AppError, e.statusCode = 400 ∧
      ∀ env : Env, generateCards env st req = (.error e, st) := by
  by_cases h1 : relTypeInvalid req = true
  · have hv : validateGenerationRequest req =
        .error { message := "Invalid relationship type", statusCode := 400 } := by
      rw [validateGenerationRequest, if_pos h1]
    exact ⟨_, rfl, fun env => by rw [generateCards, hv]⟩
  · have h1f : relTypeInvalid req = false := by
      revert h1; cases relTypeInvalid req <;> simp
    by_cases h2 : connLevelInvalid req = true
    · have hv : validateGenerationRequest req =
          .error { message := "Connection level must be between 1 and 4", statusCode := 400 } := by
        rw [validateGenerationRequest, if_neg (by simp [h1f]), if_pos h2]
      exact ⟨_, rfl, fun env => by rw [generateCards, hv]⟩
    · have h2f : connLevelInvalid req = false := by
        revert h2; cases connLevelInvalid req <;> simp
      by_cases h3 : countInvalid req = true
      · have hv : validateGenerationRequest req =
            .error { message := "Count must be between 1 and 50", statusCode := 400 } := by
          rw [validateGenerationRequest, if_neg (by simp [h1f]),
            if_neg (by simp [h2f]), if_pos h3]
        exact ⟨_, rfl, fun env => by rw [generateCards, hv]⟩
      · have h3f : countInvalid req = false := by
          revert h3; cases countInvalid req <;> simp
        by_cases h4 : thetaInvalid req = true
        · have hv : validateGenerationRequest req =
              .error { message := "Theta must be between 0.1 and 1.0", statusCode := 400 } := by
            rw [validateGenerationRequest, if_neg (by simp [h1f]),
              if_neg (by simp [h2f]), if_neg (by simp [h3f]), if_pos h4]
          exact ⟨_, rfl, fun env => by rw [generateCards, hv]⟩
        · have h4f : thetaInvalid req = false := by
            revert h4; cases thetaInvalid req <;> simp
          rw [h1f, h2f, h3f, h4f] at h
          simp at h

/-- Claim C4 witness: `count = 0` is rejected with the 400 count error
in every environment, leaving the state unchanged. -/
theorem claimC4_witness :
    ∃ e : AppError, e.statusCode = 400 ∧
      ∀ env : Env, generateCards env {} reqC4 = (.error e, {}) :=
  claimC4_validation_fail_fast {} reqC4 (by decide)

/-- One-card request for the provenance claim. -/
def reqC5 : GenRequest :=
  { relationshipType := some "friends", connectionLevel := some 1,
    count := some 1, theta := some (mkRat 1 2), targetLanguages := some ["en"] }

/-- A stub card in which the model tries to set its own lifecycle
status, provenance and statistics. -/
def rawC5 : RawCard :=
  { content := "tell a story that makes us both laugh", type := "question",
    connectionLevel := 1, relationshipTypes := ["friends"], tier := "FREE",
    status := some "active", createdBy := some "gemini",
    statistics := some { timesDrawn := 7, skipRate := mkRat 1 2, languageUsageEn := 3 } }

/-- Environment for the provenance witness. -/
def envC5 : Env :=
  { modelResponse := fun i => if i = 0 then .ok [rawC5] else .error "no batch",
    repo := [], createOk := fun _ => true }

/-- A stored active card whose relationship partition (`family`) differs
from the candidate request (`friends`). -/
def storedC7 : StoredCard :=
  { content := "share your happiest childhood memory story", type := "question",
    connectionLevel := 1, relationshipTypes := ["family"], tier := "FREE",
    status := "active", theta := mkRat 1 2 }

/-- Environment exposing the repository filter bug. -/
def envC7 : Env :=
  { modelResponse := fun _ => .error "unused", repo := [storedC7],
    createOk := fun _ => true }

/-- Request with absent `count` and `theta`. -/
def reqC9 : GenRequest :=
  { relationshipType := some "friends", connectionLevel := some 2 }

/-- Environment for the defaults witness. -/
def envC9 : Env :=
  { modelResponse := fun _ => .ok [], repo := [], createOk := fun _ => true }

/-- Two-batch request (count 11) for the silent-skip witness. -/
def reqC10 : GenRequest :=
  { relationshipType := some "friends", connectionLevel := some 1,
    count := some 11 }

/-- A schema-valid stub card. -/
def rawC10ok : RawCard :=
  { content := "plan a quick celebration dance together now", type := "question",
    connectionLevel := 1, relationshipTypes := ["friends"], tier := "FREE" }

/-- A stub card whose content is shorter than the 10-character minimum
of the card schema: it passes the duplicate filter but fails validation. -/
def rawC10bad : RawCard :=
  { content := "short", type := "question",
    connectionLevel := 1, relationshipTypes := ["friends"], tier := "FREE" }

/-- Environment for the silent-skip witness: first batch valid, second
batch returns the invalid card. -/
def envC10 : Env :=
  { modelResponse := fun i => if i = 0 then .ok [rawC10ok] else .ok [rawC10bad],
    repo := [], createOk := fun _ => true }

/-- Claim C5: every card in a successful summary has lifecycle status
`review` (never `active`), provenance `createdBy = "ai_generation"` and
zero-initialized usage statistics, regardless of what the model emitted
for those fields. -/
theorem claimC5_provenance (env : Env) (st : GenState) (req : GenRequest)
    (s : Summary) (st' : GenState)
    (h : generateCards env st req = (.ok s, st')) :
    ∀ c ∈ s.cards, c.status = "review" ∧ c.createdBy = "ai_generation" ∧
      c.statistics = { timesDrawn := 0, skipRate := 0, languageUsageEn := 0 } := by
  intro c hc
  obtain ⟨cards, hashes1, hrun, hcards, -, -, -, -, -⟩ := generateCards_ok_spec h
  rw [hcards, postProcessCards_eq_filter] at hc
  obtain ⟨hc1, -⟩ := List.mem_filter.mp hc
  obtain ⟨d, hd, rfl⟩ := List.mem_map.mp hc1
  have hprov : cardProvenanceOk d :=
    runBatches_prov _ _ _ _ _
      (fun c hc => absurd hc (List.not_mem_nil c)) hrun d hd
  exact enrichCard_prov hprov

/-- Claim C5 witness: a run whose model stub emits `status: "active"`,
its own `createdBy` and non-zero statistics; the summary card still has
the fixed provenance fields. -/
theorem claimC5_witness :
    ∃ (s : Summary) (st' : GenState),
      generateCards envC5 {} reqC5 = (.ok s, st') ∧
      ∀ c ∈ s.cards, c.status = "review" ∧ c.createdBy = "ai_generation" ∧
        c.statistics = { timesDrawn := 0, skipRate := 0, languageUsageEn := 0 } :=
  ⟨_, _, rfl, claimC5_provenance envC5 {} reqC5 _ _ rfl⟩

/-- Claim C6: the quality-to-parameter mapping is exactly
`temperature = min(0.9, θ·1.2)`, `topP = max(0.8, 1 − θ·0.2)`, token
budget 4096 iff `θ ≥ 0.6`, model pro iff `θ ≥ 0.6`; and for
`θ ∈ [0.1, 1]`, `temperature ∈ (0, 0.9]` and `topP ∈ [0.8, 1]`. -/
theorem claimC6_quality_parameter_mapping (theta : ℚ) :
    (getGenerationConfig theta).temperature = min (9/10) (theta * (6/5)) ∧
    (getGenerationConfig theta).topP = max (4/5) (1 - theta * (1/5)) ∧
    (getGenerationConfig theta).maxOutputTokens =
      (if theta ≥ 3/5 then 4096 else 2048) ∧
    selectModelName theta =
      (if theta ≥ 3/5 then "gemini-1.5-pro" else "gemini-1.5-flash") ∧
    (1/10 ≤ theta → theta ≤ 1 →
      0 < (getGenerationConfig theta).temperature ∧
      (getGenerationConfig theta).temperature ≤ 9/10 ∧
      4/5 ≤ (getGenerationConfig theta).topP ∧
      (getGenerationConfig theta).topP ≤ 1) := by
  refine ⟨rfl, rfl, rfl, rfl, ?_⟩
  intro h1 h2
  simp only [getGenerationConfig]
  refine ⟨?_, min_le_left _ _, le_max_left _ _, ?_⟩
  · rw [lt_min_iff]
    constructor
    · norm_num
    · nlinarith
  · rw [max_le_iff]
    constructor
    · norm_num
    · nlinarith

/-- Claim C6 witness: the mapping and its bounds at `θ = 1/2`. -/
theorem claimC6_witness :
    (getGenerationConfig (1/2)).temperature = min (9/10) ((1/2) * (6/5)) ∧
    (0 < (getGenerationConfig (1/2 : ℚ)).temperature ∧
      (getGenerationConfig (1/2 : ℚ)).temperature ≤ 9/10 ∧
      4/5 ≤ (getGenerationConfig (1/2 : ℚ)).topP ∧
      (getGenerationConfig (1/2 : ℚ)).topP ≤ 1) :=
  ⟨(claimC6_quality_parameter_mapping (1/2)).1,
   (claimC6_quality_parameter_mapping (1/2)).2.2.2.2 (by norm_num) (by norm_num)⟩

/-- Claim C7: the Jaccard similarity itself is sound (it lies in
`[0, 1]` and equals 1 exactly for equal non-empty word sets), but the
"same relationshipType partition, up to 100 cards" part of the claim
fails in the code: `findByFilters` never reads the `relationshipTypes`
and `limit` keys the service passes, so a candidate is classified
duplicate against a card of a different relationship partition (shown at
the concrete input below). -/
theorem claimC7_jaccard_and_partition_bug :
    (∀ A B : Finset String,
      0 ≤ (jaccardSim A B).getD 0 ∧ (jaccardSim A B).getD 0 ≤ 1) ∧
    (∀ A B : Finset String, jaccardSim A B = some 1 ↔ (A = B ∧ A.Nonempty)) ∧
    (∀ (repo : List StoredCard) (f : Filters),
      findByFilters repo f =
        findByFilters repo { f with relationshipTypes := none, limit := none }) ∧
    checkSemanticSimilarity envC7 "share your happiest childhood memory story"
      "friends" 1 = true ∧
    storedC7.relationshipTypes.contains "friends" = false := by
  refine ⟨?_, ?_, ?_, ?_, rfl⟩
  · intro A B
    rw [jaccardSim]
    by_cases h : (A ∪ B).card = 0
    · rw [if_pos h]; simp
    · rw [if_neg h]
      simp only [Option.getD_some]
      have hpos : (0 : ℚ) < ((A ∪ B).card : ℚ) := by
        exact_mod_cast Nat.pos_of_ne_zero h
      constructor
      · positivity
      · rw [div_le_one hpos]
        exact_mod_cast Finset.card_le_card Finset.inter_subset_union
  · intro A B
    constructor
    · intro h
      rw [jaccardSim] at h
      by_cases hu : (A ∪ B).card = 0
      · rw [if_pos hu] at h; exact absurd h (by simp)
      · rw [if_neg hu] at h
        have h1 := Option.some.inj h
        have hbne : ((A ∪ B).card : ℚ) ≠ 0 := by exact_mod_cast hu
        have hcq : ((A ∩ B).card : ℚ) = ((A ∪ B).card : ℚ) :=
          (div_eq_one_iff_eq hbne).mp h1
        have hcn : (A ∪ B).card ≤ (A ∩ B).card := le_of_eq (by exact_mod_cast hcq.symm)
        have heq : A ∩ B = A ∪ B :=
          Finset.eq_of_subset_of_card_le Finset.inter_subset_union hcn
        have hAB : A = B := by
          apply Finset.Subset.antisymm
          · intro x hx
            have hm := Finset.mem_union_left B hx
            rw [← heq] at hm
            exact (Finset.mem_inter.mp hm).2
          · intro x hx
            have hm := Finset.mem_union_right A hx
            rw [← heq] at hm
            exact (Finset.mem_inter.mp hm).1
        refine ⟨hAB, ?_⟩
        obtain ⟨x, hx⟩ := Finset.card_ne_zero.mp hu
        rcases Finset.mem_union.mp hx with hxa | hxb
        · exact ⟨x, hxa⟩
        · exact ⟨x, hAB ▸ hxb⟩
    · rintro ⟨rfl, hA⟩
      rw [jaccardSim, Finset.union_self, Finset.inter_self,
        if_neg (Finset.card_ne_zero.mpr hA)]
      congr 1
      exact div_self (by exact_mod_cast Finset.card_ne_zero.mpr hA)
  · intro repo f
    rfl
  · have hne : (contentWords "share your happiest childhood memory story").Nonempty := by
      decide
    have hcz : (((contentWords "share your happiest childhood memory story").card : ℚ)) ≠ 0 := by
      exact_mod_cast Finset.card_ne_zero.mpr hne
    have hsim : jaccardSim (contentWords "share your happiest childhood memory story")
        (contentWords "share your happiest childhood memory story") = some 1 := by
      rw [jaccardSim, Finset.union_self, Finset.inter_self,
        if_neg (Finset.card_ne_zero.mpr hne), div_self hcz]
    have hdup : jaccardDup (contentWords "share your happiest childhood memory story")
        (contentWords storedC7.content) = true := by
      have hs : contentWords storedC7.content =
          contentWords "share your happiest childhood memory story" := rfl
      rw [jaccardDup, hs, hsim]
      decide
    have hf : findByFilters envC7.repo
        { relationshipTypes := some ["friends"], connectionLevel := some 1,
          limit := some 100 } = [storedC7] := by decide
    rw [checkSemanticSimilarity]
    rw [hf, semanticLoop, hdup]
    simp

/-- Claim C8: the cost estimator is the stated pure function of
`(count, theta, languageCount)`, and at `count = 5`, `theta = 0.5`,
`languageCount = 1` it selects the standard (flash) tier with 2500 input
tokens and 750 output tokens. -/
theorem claimC8_cost_estimator :
    (∀ (count : Int) (theta : ℚ) (languageCount : Int),
      (estimateCost count theta languageCount).inputTokens = count * 500 ∧
      (estimateCost count theta languageCount).outputTokens =
        count * (if theta ≥ 3/5 then 200 else 150) * languageCount ∧
      (estimateCost count theta languageCount).inputCost =
        round4 (((count * 500 : Int) : ℚ) / 1000000 *
          (if theta ≥ 3/5 then 7/2 else 3/40)) ∧
      (estimateCost count theta languageCount).outputCost =
        round4 (((count * (if theta ≥ 3/5 then 200 else 150) * languageCount : Int) : ℚ)
          / 1000000 * (if theta ≥ 3/5 then 21/2 else 3/10)) ∧
      (estimateCost count theta languageCount).model =
        (if theta ≥ 3/5 then "gemini-1.5-pro" else "gemini-1.5-flash")) ∧
    (estimateCost 5 (1/2) 1).model = "gemini-1.5-flash" ∧
    (estimateCost 5 (1/2) 1).inputTokens = 2500 ∧
    (estimateCost 5 (1/2) 1).outputTokens = 750 := by
  have hs : ¬ ((1/2 : ℚ) ≥ (3/5 : ℚ)) := by norm_num
  refine ⟨?_, ?_, ?_, ?_⟩
  · intro count theta lc
    by_cases h : theta ≥ (3/5 : ℚ)
    · simp [estimateCost, h]
    · simp [estimateCost, h]
  · norm_num [estimateCost, decide_eq_false hs]
  · norm_num [estimateCost, decide_eq_false hs]
  · norm_num [estimateCost, decide_eq_false hs]

/-- Claim C9: when `count` and `theta` are absent, the range checks
compare against `undefined` and never fail, so validation passes (given
the other fields are valid) and the run is literally the same as with
the explicit defaults `count = 5`, `theta = 0.5`. -/
theorem claimC9_absent_count_theta_defaults (env : Env) (st : GenState)
    (req : GenRequest) (hc : req.count = none) (ht : req.theta = none) :
    ((relTypeInvalid req = false ∧ connLevelInvalid req = false) →
      validateGenerationRequest req = .ok ()) ∧
    countOf req = 5 ∧ thetaOf req = mkRat 1 2 ∧
    generateCards env st req =
      generateCards env st { req with count := some 5, theta := some (mkRat 1 2) } := by
  obtain ⟨rt, cl, cnt, th, tl, d, u⟩ := req
  dsimp only at hc ht
  subst hc
  subst ht
  refine ⟨?_, rfl, rfl, rfl⟩
  rintro ⟨h1, h2⟩
  rw [validate_ok_iff]
  exact ⟨h1, h2, rfl, rfl⟩

/-- Claim C9 witness: a friends/level-2 request with `count` and `theta`
absent validates and runs exactly as with the defaults. -/
theorem claimC9_witness :
    validateGenerationRequest reqC9 = .ok () ∧
    countOf reqC9 = 5 ∧ thetaOf reqC9 = mkRat 1 2 ∧
    generateCards envC9 {} reqC9 =
      generateCards envC9 {} { reqC9 with count := some 5, theta := some (mkRat 1 2) } := by
  have h := claimC9_absent_count_theta_defaults envC9 {} reqC9 rfl rfl
  exact ⟨h.1 ⟨by decide, by decide⟩, h.2.1, h.2.2.1, h.2.2.2⟩

/-- Claim C10: `postProcessCards` silently filters out every card that
fails schema validation or whose repository `create` throws — no error
reaches the caller — and on a successful run every summary card passed
both, while `duplicatesDetected` reports the whole shortfall
`count − generated`, whether or not a duplicate was detected. -/
theorem claimC10_silent_skip :
    (∀ (env : Env) (ctx : PostCtx) (cards : List GenCard),
      postProcessCards env ctx cards =
        (cards.map (enrichCard ctx)).filter fun c => validateCardB c && env.createOk c) ∧
    (∀ (env : Env) (st : GenState) (req : GenRequest) (s : Summary) (st' : GenState),
      generateCards env st req = (.ok s, st') →
      (∀ c ∈ s.cards, validateCardB c = true ∧ env.createOk c = true) ∧
      s.duplicatesDetected = countOf req - (s.cards.length : Int)) := by
  constructor
  · exact postProcessCards_eq_filter
  · intro env st req s st' h
    obtain ⟨cards, hashes1, -, hcards, -, -, hdup, -, -⟩ := generateCards_ok_spec h
    constructor
    · intro c hc
      rw [hcards, postProcessCards_eq_filter] at hc
      have h2 := (List.mem_filter.mp hc).2
      simpa using h2
    · exact hdup

/-- Claim C10 witness: two batches, the second returning a card shorter
than the schema minimum; the run succeeds, the invalid card is absent
from the summary, and the shortfall (11 requested − 1 generated = 10)
lands in `duplicatesDetected` with no duplicate involved. -/
theorem claimC10_witness :
    ∃ (s : Summary) (st' : GenState),
      generateCards envC10 {} reqC10 = (.ok s, st') ∧
      (∀ c ∈ s.cards, validateCardB c = true ∧ envC10.createOk c = true) ∧
      s.duplicatesDetected = countOf reqC10 - (s.cards.length : Int) :=
  ⟨_, _, rfl, claimC10_silent_skip.2 envC10 {} reqC10 _ _ rfl⟩

end CardGen
